import Mathlib

/-!
Verification of the flight-booking core (entities, pricing strategies,
seating strategies, booking service orchestration) against its
natural-language specification.

The Python source is shallowly embedded: Python `float` values that only
ever undergo exact arithmetic (payments, prices) are modelled as `ℚ`;
Python `int` as `ℤ` (or `ℕ` where the value is a count validated to be
positive); raising an exception is modelled as returning `Except.error`
(an exception in the source aborts the method before any mutation, so the
error case carries no updated state); methods that mutate `self` are
modelled as functions returning the updated value.
-/

/-- Booking status enumeration, from `src/core/entities/booking.py`. -/
inductive BookingStatus
  | PENDING
  | CONFIRMED
  | PAID
  | CHECKED_IN
  | COMPLETED
  | CANCELLED
deriving DecidableEq, Repr

/-- The `.value` of a `BookingStatus` member (used in error messages). -/
def BookingStatus.value : BookingStatus → String
  | .PENDING => "PENDING"
  | .CONFIRMED => "CONFIRMED"
  | .PAID => "PAID"
  | .CHECKED_IN => "CHECKED_IN"
  | .COMPLETED => "COMPLETED"
  | .CANCELLED => "CANCELLED"

/-- The `Booking` dataclass, from `src/core/entities/booking.py`.
`booking_date` (a `datetime`) is modelled as an integer timestamp; it is
never inspected by any operation considered here.  `metadata` is modelled
as an association list; it is likewise never inspected. -/
structure Booking where
  booking_id : String
  flight_id : String
  passenger_ids : List String
  seat_numbers : List String
  booking_date : ℤ
  status : BookingStatus := .PENDING
  total_price : ℚ := 0
  paid_amount : ℚ := 0
  payment_method : Option String := none
  metadata : List (String × String) := []
deriving DecidableEq, Repr

namespace Booking

/-- `Booking.mark_as_confirmed` (booking.py line 65). -/
def mark_as_confirmed (b : Booking) : Except String Booking :=
  if b.status ≠ BookingStatus.PENDING then
    .error ("Cannot confirm booking with status: " ++ b.status.value)
  else
    .ok { b with status := BookingStatus.CONFIRMED }

/-- `Booking.mark_as_paid` (booking.py line 73). -/
def mark_as_paid (b : Booking) : Except String Booking :=
  if b.status ≠ BookingStatus.CONFIRMED then
    .error ("Cannot mark as paid with status: " ++ b.status.value)
  else
    .ok { b with status := BookingStatus.PAID }

/-- `Booking.mark_as_checked_in` (booking.py line 81). -/
def mark_as_checked_in (b : Booking) : Except String Booking :=
  if b.status ≠ BookingStatus.PAID then
    .error ("Cannot check in with status: " ++ b.status.value)
  else
    .ok { b with status := BookingStatus.CHECKED_IN }

/-- `Booking.mark_as_completed` (booking.py line 89). -/
def mark_as_completed (b : Booking) : Except String Booking :=
  if b.status ≠ BookingStatus.CHECKED_IN then
    .error ("Cannot complete with status: " ++ b.status.value)
  else
    .ok { b with status := BookingStatus.COMPLETED }

/-- `Booking.cancel` (booking.py line 97). -/
def cancel (b : Booking) : Except String Booking :=
  if b.status = BookingStatus.COMPLETED ∨ b.status = BookingStatus.CANCELLED then
    .error ("Cannot cancel booking with status: " ++ b.status.value)
  else
    .ok { b with status := BookingStatus.CANCELLED }

/-- `Booking.is_paid` property (booking.py line 105): paid_amount ≥ total_price. -/
def is_paid (b : Booking) : Bool :=
  decide (b.total_price ≤ b.paid_amount)

/-- `Booking.record_payment` (booking.py line 115): rejects `amount ≤ 0` with an
exception; adds the amount when the new total does not exceed `total_price`
and returns `true`; otherwise leaves the booking untouched and returns `false`. -/
def record_payment (b : Booking) (amount : ℚ) : Except String (Booking × Bool) :=
  if amount ≤ 0 then
    .error "Payment amount must be positive"
  else if b.paid_amount + amount ≤ b.total_price then
    .ok ({ b with paid_amount := b.paid_amount + amount }, true)
  else
    .ok (b, false)

end Booking

/-- The five lifecycle operations of a `Booking`, as abstract actions. -/
inductive LifecycleAction
  | confirm
  | pay
  | check_in
  | complete
  | cancel
deriving DecidableEq, Repr

/-- Dispatch a `LifecycleAction` to the corresponding `Booking` method. -/
def apply_lifecycle (b : Booking) : LifecycleAction → Except String Booking
  | .confirm => b.mark_as_confirmed
  | .pay => b.mark_as_paid
  | .check_in => b.mark_as_checked_in
  | .complete => b.mark_as_completed
  | .cancel => b.cancel

/-- The transition table claimed by the specification (§4.3): the unique
target state of each action from each state, or `none` when the action is
rejected.  This is the spec side of the refinement check; it is compared
against the code side (`apply_lifecycle`). -/
def lifecycle_target : BookingStatus → LifecycleAction → Option BookingStatus
  | .PENDING, .confirm => some .CONFIRMED
  | .CONFIRMED, .pay => some .PAID
  | .PAID, .check_in => some .CHECKED_IN
  | .CHECKED_IN, .complete => some .COMPLETED
  | .PENDING, .cancel => some .CANCELLED
  | .CONFIRMED, .cancel => some .CANCELLED
  | .PAID, .cancel => some .CANCELLED
  | .CHECKED_IN, .cancel => some .CANCELLED
  | _, _ => none

/-- A concrete well-formed booking used by witnesses. -/
def sampleBooking : Booking :=
  { booking_id := "BK-0001"
    flight_id := "FL100"
    passenger_ids := ["P1"]
    seat_numbers := ["1A"]
    booking_date := 0
    status := .PENDING
    total_price := 100
    paid_amount := 0 }

/-- C1: the booking lifecycle admits exactly the transitions
PENDING→CONFIRMED (confirm), CONFIRMED→PAID (pay), PAID→CHECKED_IN
(check_in), CHECKED_IN→COMPLETED (complete), and cancel from any of
{PENDING, CONFIRMED, PAID, CHECKED_IN} to CANCELLED: whenever the claimed
table permits a transition the operation sets exactly that status, and in
every other state the operation raises (so COMPLETED and CANCELLED, for
which the table permits nothing, admit no outgoing transition; an error
leaves the booking unchanged by construction of the embedding). -/
theorem booking_lifecycle_refines_table (b : Booking) (a : LifecycleAction) :
    (∀ s, lifecycle_target b.status a = some s →
      apply_lifecycle b a = Except.ok { b with status := s }) ∧
    (lifecycle_target b.status a = none →
      ∃ msg, apply_lifecycle b a = Except.error msg) := by
  obtain ⟨id, fid, pids, seats, date, st, tp, pa, pm, md⟩ := b
  cases a <;> cases st <;>
    simp [apply_lifecycle, lifecycle_target, Booking.mark_as_confirmed,
      Booking.mark_as_paid, Booking.mark_as_checked_in,
      Booking.mark_as_completed, Booking.cancel]

/-- Witness for C1 at a concrete booking: confirming a PENDING booking
succeeds and sets status CONFIRMED. -/
theorem booking_lifecycle_refines_table_witness :
    apply_lifecycle sampleBooking .confirm =
      Except.ok { sampleBooking with status := .CONFIRMED } :=
  (booking_lifecycle_refines_table sampleBooking .confirm).1 .CONFIRMED rfl

/-- A booking at total price 100 with nothing paid yet, for the C2
counterexample. -/
def samplePartialBooking : Booking :=
  { sampleBooking with total_price := 100, paid_amount := 0 }

/-- C2 counterexample: `record_payment` does NOT return "whether the booking
is now fully paid" — a partial payment of 50 against a total of 100 is
recorded and returns `true` even though the booking is not fully paid
(50 < 100). -/
theorem record_payment_partial_returns_true :
    Booking.record_payment samplePartialBooking 50 =
      Except.ok ({ samplePartialBooking with paid_amount := 50 }, true) ∧
    ¬ (100 : ℚ) ≤ (50 : ℚ) := by
  constructor
  · norm_num [Booking.record_payment, samplePartialBooking, sampleBooking]
  · norm_num

/-- C2 (amended): for every booking and every amount > 0 with
paid_amount + amount ≤ total_price, `record_payment` increments
`paid_amount` by the amount and returns `true` — the boolean reports that
the payment was recorded, not that the booking is now fully paid. -/
theorem record_payment_accepts_and_returns_true (b : Booking) (amount : ℚ)
    (hpos : 0 < amount) (hle : b.paid_amount + amount ≤ b.total_price) :
    b.record_payment amount =
      Except.ok ({ b with paid_amount := b.paid_amount + amount }, true) := by
  unfold Booking.record_payment
  rw [if_neg (by linarith), if_pos hle]

/-- Witness for the amended C2 at a concrete booking and amount. -/
theorem record_payment_accepts_and_returns_true_witness :
    Booking.record_payment samplePartialBooking 30 =
      Except.ok ({ samplePartialBooking with paid_amount := 0 + 30 }, true) :=
  record_payment_accepts_and_returns_true samplePartialBooking 30
    (by norm_num) (by norm_num [samplePartialBooking, sampleBooking])

/-- C3: `record_payment` raises on amount ≤ 0, and an amount that would push
`paid_amount` above `total_price` makes it return `false` with the booking
unchanged (neither clamped nor raising). -/
theorem record_payment_rejects (b : Booking) (amount : ℚ) :
    (amount ≤ 0 →
      b.record_payment amount = Except.error "Payment amount must be positive") ∧
    (0 < amount → b.total_price < b.paid_amount + amount →
      b.record_payment amount = Except.ok (b, false)) := by
  constructor
  · intro h
    unfold Booking.record_payment
    rw [if_pos h]
  · intro h1 h2
    unfold Booking.record_payment
    rw [if_neg (by linarith), if_neg (by linarith)]

/-- Witness for C3: amount 0 raises; overpaying 150 on a 100-total booking
returns `false` and leaves the booking unchanged. -/
theorem record_payment_rejects_witness :
    Booking.record_payment samplePartialBooking 0 =
      Except.error "Payment amount must be positive" ∧
    Booking.record_payment samplePartialBooking 150 =
      Except.ok (samplePartialBooking, false) :=
  ⟨(record_payment_rejects samplePartialBooking 0).1 le_rfl,
   (record_payment_rejects samplePartialBooking 150).2 (by norm_num)
     (by norm_num [samplePartialBooking, sampleBooking])⟩

/-- Flight status enumeration, from `src/core/entities/flight.py`. -/
inductive FlightStatus
  | SCHEDULED
  | BOARDED
  | DEPARTED
  | IN_FLIGHT
  | LANDED
  | CANCELLED
deriving DecidableEq, Repr

/-- The `Flight` dataclass, from `src/core/entities/flight.py`.
`departure_time`/`arrival_time` (datetimes) are modelled as integer
timestamps (only their order is ever inspected); `metadata` as an
association list (never inspected). -/
structure Flight where
  flight_number : String
  origin : String
  destination : String
  departure_time : ℤ
  arrival_time : ℤ
  aircraft_id : String
  total_seats : ℤ
  available_seats : ℤ
  status : FlightStatus := .SCHEDULED
  price : ℚ := 0
  metadata : List (String × String) := []
deriving DecidableEq, Repr

namespace Flight

/-- `Flight.__post_init__` validation (flight.py lines 47-60), modelled as a
checked constructor: the checks run in source order and the first failing
one raises. -/
def mk_flight (f : Flight) : Except String Flight :=
  if f.flight_number = "" then
    .error "Flight number cannot be empty"
  else if f.origin = f.destination then
    .error "Origin and destination must be different"
  else if f.arrival_time ≤ f.departure_time then
    .error "Departure time must be before arrival time"
  else if f.total_seats ≤ 0 then
    .error "Total seats must be positive"
  else if f.total_seats < f.available_seats then
    .error "Available seats cannot exceed total seats"
  else if f.available_seats < 0 then
    .error "Available seats cannot be negative"
  else
    .ok f

/-- `Flight.reserve_seat` (flight.py lines 62-78). -/
def reserve_seat (f : Flight) (count : ℤ) : Except String (Flight × Bool) :=
  if count ≤ 0 then
    .error "Reservation count must be positive"
  else if count ≤ f.available_seats then
    .ok ({ f with available_seats := f.available_seats - count }, true)
  else
    .ok (f, false)

/-- `Flight.cancel_reservation` (flight.py lines 80-96). -/
def cancel_reservation (f : Flight) (count : ℤ) : Except String (Flight × Bool) :=
  if count ≤ 0 then
    .error "Cancellation count must be positive"
  else if f.available_seats + count ≤ f.total_seats then
    .ok ({ f with available_seats := f.available_seats + count }, true)
  else
    .ok (f, false)

end Flight

/-- A concrete flight satisfying the constructor invariants, used by
witnesses: 5 total seats, 3 available. -/
def sampleFlight : Flight :=
  { flight_number := "FL100"
    origin := "LHE"
    destination := "DXB"
    departure_time := 0
    arrival_time := 1
    aircraft_id := "AC1"
    total_seats := 5
    available_seats := 3 }

/-- C6: for every flight satisfying the constructor invariants
(0 ≤ available_seats ≤ total_seats) and every n > 0: if `reserve_seat n`
succeeds it never drives `available_seats` negative and a subsequent
`cancel_reservation n` succeeds and restores `available_seats` to its
original value; if `available_seats < n`, `reserve_seat` returns `false`
and leaves the flight unchanged. -/
theorem flight_reserve_cancel_roundtrip (f : Flight) (n : ℤ)
    (hn : 0 < n) (h0 : 0 ≤ f.available_seats)
    (h1 : f.available_seats ≤ f.total_seats) :
    (n ≤ f.available_seats →
      ∃ f', f.reserve_seat n = Except.ok (f', true) ∧
        0 ≤ f'.available_seats ∧
        ∃ f'', f'.cancel_reservation n = Except.ok (f'', true) ∧
          f''.available_seats = f.available_seats) ∧
    (f.available_seats < n → f.reserve_seat n = Except.ok (f, false)) := by
  constructor
  · intro hle
    refine ⟨{ f with available_seats := f.available_seats - n }, ?_, ?_, ?_⟩
    · unfold Flight.reserve_seat
      rw [if_neg (by omega), if_pos hle]
    · simp only
      omega
    · refine ⟨{ f with available_seats := f.available_seats - n + n }, ?_, ?_⟩
      · unfold Flight.cancel_reservation
        rw [if_neg (by omega), if_pos (by simp only; omega)]
      · simp only
        omega
  · intro hlt
    unfold Flight.reserve_seat
    rw [if_neg (by omega), if_neg (by omega)]

/-- Witness for C6 at a concrete flight (3 of 5 seats available, n = 2):
the reservation succeeds and cancelling restores 3 available seats. -/
theorem flight_reserve_cancel_roundtrip_witness :
    ∃ f', sampleFlight.reserve_seat 2 = Except.ok (f', true) ∧
      0 ≤ f'.available_seats ∧
      ∃ f'', f'.cancel_reservation 2 = Except.ok (f'', true) ∧
        f''.available_seats = sampleFlight.available_seats :=
  (flight_reserve_cancel_roundtrip sampleFlight 2 (by norm_num)
    (by norm_num [sampleFlight]) (by norm_num [sampleFlight])).1
    (by norm_num [sampleFlight])

/-- C9 counterexample: constructing a flight with `total_seats = 0` and
`available_seats = 0` (all other fields valid) does NOT succeed — the
validator raises "Total seats must be positive". -/
theorem mk_flight_zero_seats_rejected :
    Flight.mk_flight { sampleFlight with total_seats := 0, available_seats := 0 } =
      Except.error "Total seats must be positive" := by
  norm_num [Flight.mk_flight, sampleFlight]
  rw [if_neg (by decide), if_neg (by decide)]

/-- C9 (amended): flight construction accepts any `total_seats ≥ 1` together
with `0 ≤ available_seats ≤ total_seats` (given the other field
constraints); `total_seats = 0` is rejected as "Total seats must be
positive". -/
theorem mk_flight_accepts_valid (f : Flight)
    (hnum : f.flight_number ≠ "") (hod : f.origin ≠ f.destination)
    (ht : f.departure_time < f.arrival_time)
    (hts : 1 ≤ f.total_seats)
    (ha0 : 0 ≤ f.available_seats) (ha1 : f.available_seats ≤ f.total_seats) :
    Flight.mk_flight f = Except.ok f := by
  unfold Flight.mk_flight
  rw [if_neg hnum, if_neg hod, if_neg (by omega), if_neg (by omega),
    if_neg (by omega), if_neg (by omega)]

/-- Witness for the amended C9: the sample flight passes validation. -/
theorem mk_flight_accepts_valid_witness :
    Flight.mk_flight sampleFlight = Except.ok sampleFlight :=
  mk_flight_accepts_valid sampleFlight (by decide)
    (by decide) (by norm_num [sampleFlight])
    (by norm_num [sampleFlight]) (by norm_num [sampleFlight])
    (by norm_num [sampleFlight])

/-- Python's `round(x, 2)` (round half to even at two decimal places),
applied to the exact rational value: scale by 100, round half-to-even to an
integer, scale back.  `Int.fdiv num den` is the mathematical floor of the
scaled value (a rational's denominator is positive). -/
def round2 (q : ℚ) : ℚ :=
  let y : ℚ := q * 100
  let n : ℤ := Int.fdiv y.num (y.den : ℤ)
  let r : ℚ := y - (n : ℚ)
  let k : ℤ :=
    if r < 1/2 then n
    else if 1/2 < r then n + 1
    else if n % 2 = 0 then n else n + 1
  (k : ℚ) / 100

/-- Rounding an integer-valued rational changes nothing. -/
theorem round2_intCast (z : ℤ) : round2 (z : ℚ) = z := by
  have h1 : ((z : ℚ) * 100) = ((z * 100 : ℤ) : ℚ) := by push_cast; ring
  simp only [round2, h1, Rat.num_intCast, Rat.den_intCast, Nat.cast_one,
    Int.fdiv_one, sub_self]
  rw [if_pos (by norm_num)]
  push_cast
  ring

/-- `PricingStrategy.validate_inputs` (pricing/base_strategy.py lines
73-95), shared by all pricing strategies. -/
def validate_inputs (n : ℤ) (occ : ℚ) (d : ℤ) : Except String Unit :=
  if n ≤ 0 then .error "Number of passengers must be positive"
  else if ¬ (0 ≤ occ ∧ occ ≤ 100) then
    .error "Occupancy rate must be between 0 and 100"
  else if d < 0 then .error "Days until departure cannot be negative"
  else .ok ()

/-- Valid inputs pass `validate_inputs`. -/
theorem validate_inputs_ok (n : ℤ) (occ : ℚ) (d : ℤ)
    (hn : 0 < n) (ho0 : 0 ≤ occ) (ho1 : occ ≤ 100) (hd : 0 ≤ d) :
    validate_inputs n occ d = Except.ok () := by
  unfold validate_inputs
  rw [if_neg (by omega), if_neg (by simp [ho0, ho1]), if_neg (by omega)]

/-- `_get_passenger_type_multiplier`, the identical dict lookup with
default 1.0 found in each pricing strategy class
(`{"ADULT": 1.0, "CHILD": 0.75, "INFANT": 0.5}.get(passenger_type, 1.0)`). -/
def passenger_type_multiplier (t : String) : ℚ :=
  if t = "ADULT" then 1
  else if t = "CHILD" then 3/4
  else if t = "INFANT" then 1/2
  else 1

namespace DynamicPricing

/-- `DynamicPricing._calculate_occupancy_multiplier` (dynamic_pricing.py
line 66): `1.0 + (occupancy_rate / 100) * 0.5`. -/
def occupancy_multiplier (occ : ℚ) : ℚ :=
  1 + (occ / 100) * (1/2)

/-- `DynamicPricing._calculate_time_multiplier` (dynamic_pricing.py line
80): `days == 0` is first replaced by 1, then
`1.0 + (100 / (days + 1)) * 0.25`. -/
def time_multiplier (d : ℤ) : ℚ :=
  let d' : ℤ := if d = 0 then 1 else d
  1 + (100 / ((d' : ℚ) + 1)) * (1/4)

/-- `DynamicPricing.calculate_price` (dynamic_pricing.py lines 29-64). -/
def calculate_price (base : ℚ) (n : ℤ) (occ : ℚ) (d : ℤ) (t : String) :
    Except String ℚ := do
  let _ ← validate_inputs n occ d
  pure (round2 (base * occupancy_multiplier occ * time_multiplier d *
    passenger_type_multiplier t))

end DynamicPricing

/-- C5: for valid inputs, `DynamicPricing.calculate_price` returns
`round(base × (1 + (occ/100)·0.5) × (1 + (100/(d′+1))·0.25) × pm, 2)` where
d′ is `days_until_departure` with 0 replaced by 1 (in this formula only),
and the passenger multiplier is ADULT=1, CHILD=0.75, INFANT=0.5, anything
else 1; in particular `DynamicPricing(100).calculate_price(1, 75, 10,
"ADULT")` is exactly 450. -/
theorem dynamic_price_formula (base occ : ℚ) (n d : ℤ) (t : String)
    (hn : 0 < n) (ho0 : 0 ≤ occ) (ho1 : occ ≤ 100) (hd : 0 ≤ d) :
    DynamicPricing.calculate_price base n occ d t =
      Except.ok (round2 (base * (1 + (occ / 100) * (1/2)) *
        (1 + (100 / ((((if d = 0 then 1 else d) : ℤ) : ℚ) + 1)) * (1/4)) *
        passenger_type_multiplier t)) ∧
    passenger_type_multiplier "ADULT" = 1 ∧
    passenger_type_multiplier "CHILD" = 3/4 ∧
    passenger_type_multiplier "INFANT" = 1/2 ∧
    (∀ s, s ≠ "ADULT" → s ≠ "CHILD" → s ≠ "INFANT" →
      passenger_type_multiplier s = 1) ∧
    DynamicPricing.calculate_price 100 1 75 10 "ADULT" = Except.ok 450 := by
  refine ⟨?_, rfl, ?_, ?_, ?_, ?_⟩
  · rw [DynamicPricing.calculate_price,
      validate_inputs_ok n occ d hn ho0 ho1 hd]
    rfl
  · rw [passenger_type_multiplier]
    rw [if_neg (by decide), if_pos rfl]
  · rw [passenger_type_multiplier]
    rw [if_neg (by decide), if_neg (by decide), if_pos rfl]
  · intro s h1 h2 h3
    rw [passenger_type_multiplier, if_neg h1, if_neg h2, if_neg h3]
  · rw [DynamicPricing.calculate_price,
      validate_inputs_ok 1 75 10 (by norm_num) (by norm_num) (by norm_num)
        (by norm_num)]
    have harg : (100 : ℚ) * DynamicPricing.occupancy_multiplier 75 *
        DynamicPricing.time_multiplier 10 * passenger_type_multiplier "ADULT" =
        ((450 : ℤ) : ℚ) := by
      rw [DynamicPricing.occupancy_multiplier, DynamicPricing.time_multiplier,
        passenger_type_multiplier, if_pos rfl]
      norm_num
    show Except.ok (round2 _) = _
    rw [harg, round2_intCast]
    norm_num

/-- Witness for C5: applying the theorem at its concrete seed input yields
`450` exactly. -/
theorem dynamic_price_formula_witness :
    DynamicPricing.calculate_price 100 1 75 10 "ADULT" = Except.ok 450 :=
  (dynamic_price_formula 100 75 1 10 "ADULT" (by norm_num) (by norm_num)
    (by norm_num) (by norm_num)).2.2.2.2.2

namespace SeasonalPricing

/-- `SeasonalPricing.SEASONAL_MULTIPLIERS` (seasonal_pricing.py lines
22-35), read through `dict.get(departure_month, 1.0)` (line 64): the
final branch is the dict-lookup default. -/
def seasonal_multiplier (m : ℤ) : ℚ :=
  if m = 1 then 13/10
  else if m = 2 then 17/20
  else if m = 3 then 23/20
  else if m = 4 then 23/20
  else if m = 5 then 23/20
  else if m = 6 then 23/20
  else if m = 7 then 13/10
  else if m = 8 then 13/10
  else if m = 9 then 23/20
  else if m = 10 then 23/20
  else if m = 11 then 1
  else if m = 12 then 13/10
  else 1

/-- `SeasonalPricing.calculate_price` (seasonal_pricing.py lines 37-72):
base inputs are validated first; then a missing or out-of-range
`departure_month` raises; otherwise the seasonal formula applies. -/
def calculate_price (base : ℚ) (n : ℤ) (occ : ℚ) (d : ℤ) (t : String)
    (departure_month : Option ℤ) : Except String ℚ := do
  let _ ← validate_inputs n occ d
  match departure_month with
  | none =>
    Except.error "Valid departure_month (1-12) is required for seasonal pricing"
  | some m =>
    if m < 1 ∨ 12 < m then
      Except.error "Valid departure_month (1-12) is required for seasonal pricing"
    else
      pure (round2 (base * seasonal_multiplier m * passenger_type_multiplier t))

end SeasonalPricing

/-- C8: with valid base inputs, `SeasonalPricing.calculate_price` raises the
required-parameter error whenever `departure_month` is missing or outside
[1,12] (never silently defaulted), and for a month m in [1,12] returns
`round(base × seasonal_multiplier(m) × passenger_multiplier, 2)` with the
table Jan/Jul/Aug/Dec = 1.3, Mar–Jun/Sep/Oct = 1.15, Feb = 0.85,
Nov = 1.0. -/
theorem seasonal_price_spec (base occ : ℚ) (n d : ℤ) (t : String)
    (hn : 0 < n) (ho0 : 0 ≤ occ) (ho1 : occ ≤ 100) (hd : 0 ≤ d) :
    (SeasonalPricing.calculate_price base n occ d t none =
      Except.error "Valid departure_month (1-12) is required for seasonal pricing") ∧
    (∀ m : ℤ, m < 1 ∨ 12 < m →
      SeasonalPricing.calculate_price base n occ d t (some m) =
        Except.error "Valid departure_month (1-12) is required for seasonal pricing") ∧
    (∀ m : ℤ, 1 ≤ m → m ≤ 12 →
      SeasonalPricing.calculate_price base n occ d t (some m) =
        Except.ok (round2 (base * SeasonalPricing.seasonal_multiplier m *
          passenger_type_multiplier t))) ∧
    (SeasonalPricing.seasonal_multiplier 1 = 13/10 ∧
     SeasonalPricing.seasonal_multiplier 7 = 13/10 ∧
     SeasonalPricing.seasonal_multiplier 8 = 13/10 ∧
     SeasonalPricing.seasonal_multiplier 12 = 13/10) ∧
    (SeasonalPricing.seasonal_multiplier 3 = 23/20 ∧
     SeasonalPricing.seasonal_multiplier 4 = 23/20 ∧
     SeasonalPricing.seasonal_multiplier 5 = 23/20 ∧
     SeasonalPricing.seasonal_multiplier 6 = 23/20 ∧
     SeasonalPricing.seasonal_multiplier 9 = 23/20 ∧
     SeasonalPricing.seasonal_multiplier 10 = 23/20) ∧
    SeasonalPricing.seasonal_multiplier 2 = 17/20 ∧
    SeasonalPricing.seasonal_multiplier 11 = 1 := by
  have hv := validate_inputs_ok n occ d hn ho0 ho1 hd
  refine ⟨?_, ?_, ?_, ?_, ?_, ?_, ?_⟩
  · rw [SeasonalPricing.calculate_price, hv]
    rfl
  · intro m hm
    rw [SeasonalPricing.calculate_price, hv]
    show (if m < 1 ∨ 12 < m then _ else _) = _
    rw [if_pos hm]
  · intro m hm1 hm2
    rw [SeasonalPricing.calculate_price, hv]
    show (if m < 1 ∨ 12 < m then _ else _) = _
    rw [if_neg (by omega)]
    rfl
  · refine ⟨rfl, ?_, ?_, ?_⟩ <;> · rw [SeasonalPricing.seasonal_multiplier]; norm_num
  · refine ⟨?_, ?_, ?_, ?_, ?_, ?_⟩ <;> · rw [SeasonalPricing.seasonal_multiplier]; norm_num
  · rw [SeasonalPricing.seasonal_multiplier]; norm_num
  · rw [SeasonalPricing.seasonal_multiplier]; norm_num

/-- Witness for C8: the spec's own seed test — base 100, one adult, 50%
occupancy, 30 days out, no `departure_month` — raises the
required-parameter error. -/
theorem seasonal_price_spec_witness :
    SeasonalPricing.calculate_price 100 1 50 30 "ADULT" none =
      Except.error "Valid departure_month (1-12) is required for seasonal pricing" :=
  (seasonal_price_spec 100 50 1 30 "ADULT" (by norm_num) (by norm_num)
    (by norm_num) (by norm_num)).1

/-- Python string comparison `a < b`: lexicographic on code points. -/
def pyCharsLt : List Char → List Char → Bool
  | [], [] => false
  | [], _ :: _ => true
  | _ :: _, [] => false
  | a :: as, b :: bs =>
    if a < b then true
    else if b < a then false
    else pyCharsLt as bs

/-- Python `a < b` on strings. -/
def strLt (a b : String) : Bool :=
  pyCharsLt a.toList b.toList

/-- Insert a string into an ascending list (helper for `sortStrings`). -/
def insertSorted (s : String) : List String → List String
  | [] => [s]
  | t :: ts => if strLt s t then s :: t :: ts else t :: insertSorted s ts

/-- Python `sorted` on a list of distinct strings (ascending by `strLt`);
insertion sort — on distinct keys any correct sort agrees with Python's. -/
def sortStrings : List String → List String
  | [] => []
  | s :: ls => insertSorted s (sortStrings ls)

/-- `FamilyAllocation._group_seats_by_row`'s key (family_allocation.py line
65): `"".join(c for c in seat if c.isdigit())` — ALL digit characters of
the identifier, not only a leading run. -/
def rowKey (seat : String) : String :=
  String.mk (seat.toList.filter Char.isDigit)

/-- The row group of key `k`: the pool's seats with that key, in pool order
(Python builds the groups by one pass over `self.available_seats`). -/
def rowGroup (pool : List String) (k : String) : List String :=
  pool.filter (fun s => rowKey s == k)

/-- `sorted(seats_by_row.keys())` (family_allocation.py line 37): the
distinct row keys in ascending Python-string (lexicographic) order.
`dedup`'s occurrence order differs from the dict's insertion order, but the
subsequent sort makes the two coincide. -/
def sortedRowKeys (pool : List String) : List String :=
  sortStrings ((pool.map rowKey).dedup)

/-- The allocation loop of `FamilyAllocation.allocate_seats`
(family_allocation.py lines 37-47): consume each row in order, stopping as
soon as `n` seats are gathered. -/
def allocLoop : List (List String) → ℕ → List String
  | [], _ => []
  | r :: rs, n =>
    let t := r.take n
    if t.length < n then t ++ allocLoop rs (n - t.length) else t

/-- `SeatingStrategy.mark_seats_as_used` (seating/base_strategy.py lines
83-92): remove the first occurrence of each allocated seat from the pool
(`list.remove`, guarded by membership — `List.erase` is a no-op when the
seat is absent, like the guard). -/
def mark_seats_as_used (pool seats : List String) : List String :=
  seats.foldl (fun p s => p.erase s) pool

namespace FamilyAllocation

/-- `FamilyAllocation.allocate_seats` (family_allocation.py lines 19-52),
with `SeatingStrategy.validate_seat_count` inlined (a `count ≤ 0` request
is modelled by `n = 0`, counts being naturals).  Returns the allocated
seats and the remaining pool. -/
def allocate_seats (pool : List String) (n : ℕ) :
    Except String (List String × List String) :=
  if n = 0 then .error "Seat count must be positive"
  else if pool.length < n then
    .error ("Not enough seats available. Requested: " ++ toString n ++
      ", Available: " ++ toString pool.length)
  else
    let allocated := allocLoop ((sortedRowKeys pool).map (rowGroup pool)) n
    .ok (allocated, mark_seats_as_used pool allocated)

end FamilyAllocation

namespace SequentialAllocation

/-- `SequentialAllocation.allocate_seats` (sequential_allocation.py lines
19-37): the first `n` pool seats, removed from the pool. -/
def allocate_seats (pool : List String) (n : ℕ) :
    Except String (List String × List String) :=
  if n = 0 then .error "Seat count must be positive"
  else if pool.length < n then
    .error ("Not enough seats available. Requested: " ++ toString n ++
      ", Available: " ++ toString pool.length)
  else
    let allocated := pool.take n
    .ok (allocated, mark_seats_as_used pool allocated)

end SequentialAllocation

/-- Modelled from the claim's words (C7 / spec §4.2 "Family"): row = the
LEADING digit run of the identifier, rows iterated in ascending NUMERIC
order.  This is the spec side of the comparison; the code side is
`FamilyAllocation.allocate_seats`. -/
def leadingDigitRun (seat : String) : String :=
  String.mk (seat.toList.takeWhile Char.isDigit)

/-- Numeric value of a digit string, most significant digit first
(claim side). -/
def keyNumAux (acc : ℕ) : List Char → ℕ
  | [] => acc
  | c :: cs => keyNumAux (acc * 10 + (c.toNat - '0'.toNat)) cs

/-- Numeric value of a digit-run key (claim side). -/
def keyNum (s : String) : ℕ :=
  keyNumAux 0 s.toList

/-- Insert into a list ascending by `keyNum` (claim side). -/
def insertSortedNum (s : String) : List String → List String
  | [] => [s]
  | t :: ts => if keyNum s < keyNum t then s :: t :: ts else t :: insertSortedNum s ts

/-- Sort keys in ascending numeric order (claim side). -/
def sortKeysNum : List String → List String
  | [] => []
  | s :: ls => insertSortedNum s (sortKeysNum ls)

/-- Modelled from the claim's words: FamilyAllocation as C7 describes it —
group by leading digit run, iterate rows in ascending numeric order
("row 2 before row 10"), consume until n, remove from pool. -/
def family_allocate_claim (pool : List String) (n : ℕ) :
    Except String (List String × List String) :=
  if n = 0 then .error "Seat count must be positive"
  else if pool.length < n then
    .error ("Not enough seats available. Requested: " ++ toString n ++
      ", Available: " ++ toString pool.length)
  else
    let groups := (sortKeysNum ((pool.map leadingDigitRun).dedup)).map
      (fun k => pool.filter (fun s => leadingDigitRun s == k))
    let allocated := allocLoop groups n
    .ok (allocated, mark_seats_as_used pool allocated)

/-- C7 counterexample: on the pool ["10A", "2A"] the code consumes row "10"
BEFORE row "2" (string sort: "10" < "2"), while the claim's
ascending-numeric-order reading demands row 2 first — the two disagree on
`allocate_seats(1)`. -/
theorem family_allocation_row_order_counterexample :
    FamilyAllocation.allocate_seats ["10A", "2A"] 1 =
      Except.ok (["10A"], ["2A"]) ∧
    family_allocate_claim ["10A", "2A"] 1 = Except.ok (["2A"], ["10A"]) ∧
    (["10A"] : List String) ≠ ["2A"] :=
  ⟨rfl, rfl, by decide⟩

/-- The row-consumption loop gathers exactly the first `n` seats of the
concatenated row groups. -/
theorem allocLoop_eq_take (rows : List (List String)) (n : ℕ) :
    allocLoop rows n = rows.flatten.take n := by
  induction rows generalizing n with
  | nil => simp [allocLoop]
  | cons r rs ih =>
    rw [allocLoop, List.flatten_cons, List.take_append_eq_append_take]
    by_cases h : r.length < n
    · have ht : r.take n = r := List.take_of_length_le (le_of_lt h)
      simp only [ht]
      rw [if_pos (by omega), ih]
    · have hlt : (r.take n).length = n := by
        rw [List.length_take]
        omega
      rw [hlt, if_neg (by omega)]
      have hz : n - r.length = 0 := by omega
      rw [hz, List.take_zero, List.append_nil]

/-- Inserting into an ascending list permutes consing. -/
theorem insertSorted_perm (s : String) (l : List String) :
    (insertSorted s l).Perm (s :: l) := by
  induction l with
  | nil => simp [insertSorted]
  | cons t ts ih =>
    rw [insertSorted]
    by_cases h : strLt s t = true
    · rw [if_pos h]
    · rw [if_neg h]
      exact (ih.cons t).trans (List.Perm.swap s t ts)

/-- `sortStrings` permutes its input. -/
theorem sortStrings_perm (l : List String) : (sortStrings l).Perm l := by
  induction l with
  | nil => simp [sortStrings]
  | cons s ls ih =>
    rw [sortStrings]
    exact (insertSorted_perm s (sortStrings ls)).trans (ih.cons s)

/-- Concatenating the groups of a duplicate-free key list that covers every
seat's key exhausts the pool: the flattened groups have the pool's length. -/
theorem flatten_rowGroups_length (ks : List String) :
    ∀ pool : List String, ks.Nodup → (∀ s ∈ pool, rowKey s ∈ ks) →
      ((ks.map (rowGroup pool)).flatten).length = pool.length := by
  induction ks with
  | nil =>
    intro pool _ hcov
    cases pool with
    | nil => rfl
    | cons s t => exact absurd (hcov s (List.mem_cons_self s t)) (List.not_mem_nil _)
  | cons k ks ih =>
    intro pool hnd hcov
    have htail : ks.map (rowGroup pool) =
        ks.map (rowGroup (pool.filter (fun s => !(rowKey s == k)))) := by
      apply List.map_congr_left
      intro k' hk'
      have hkk : k' ≠ k := by
        rintro rfl
        exact (List.nodup_cons.mp hnd).1 hk'
      unfold rowGroup
      rw [List.filter_filter]
      apply List.filter_congr
      intro s _
      cases hcase : (rowKey s == k') with
      | true =>
        have : rowKey s = k' := by simpa using hcase
        simp [this, hkk]
      | false => simp
    rw [List.map_cons, List.flatten_cons, List.length_append, htail]
    rw [ih (pool.filter (fun s => !(rowKey s == k))) (List.nodup_cons.mp hnd).2 ?_]
    · unfold rowGroup
      exact (List.length_eq_length_filter_add (fun s => rowKey s == k)).symm
    · intro s hs
      have hmem := List.mem_filter.mp hs
      have hne : rowKey s ≠ k := by simpa using hmem.2
      rcases List.mem_cons.mp (hcov s hmem.1) with h | h
      · exact absurd h hne
      · exact h

/-- C7 (amended): for every pool and every valid n (0 < n ≤ pool size),
`FamilyAllocation.allocate_seats` groups the pool by row — the row being
the digit characters of the seat identifier — iterates the rows in
ascending STRING (lexicographic) order of those digit keys (so row "10" is
consumed before row "2"), consumes seats row by row until exactly n seats
are gathered, removes the allocated seats from the pool, and returns them:
the result is the first n seats of the concatenated row groups, and
exactly n seats are allocated. -/
theorem family_allocate_spec (pool : List String) (n : ℕ)
    (h1 : 0 < n) (h2 : n ≤ pool.length) :
    FamilyAllocation.allocate_seats pool n =
      Except.ok ((((sortedRowKeys pool).map (rowGroup pool)).flatten).take n,
        mark_seats_as_used pool
          ((((sortedRowKeys pool).map (rowGroup pool)).flatten).take n)) ∧
    ((((sortedRowKeys pool).map (rowGroup pool)).flatten).take n).length = n := by
  have hnd : (sortedRowKeys pool).Nodup :=
    (sortStrings_perm _).nodup_iff.mpr (List.nodup_dedup _)
  have hcov : ∀ s ∈ pool, rowKey s ∈ sortedRowKeys pool := by
    intro s hs
    exact (sortStrings_perm _).mem_iff.mpr
      (List.mem_dedup.mpr (List.mem_map_of_mem rowKey hs))
  have hlen := flatten_rowGroups_length (sortedRowKeys pool) pool hnd hcov
  constructor
  · unfold FamilyAllocation.allocate_seats
    rw [if_neg (by omega), if_neg (by omega), allocLoop_eq_take]
  · rw [List.length_take]
    omega

/-- Witness for the amended C7 on the pool ["1A", "1B", "2A"] with n = 2. -/
theorem family_allocate_spec_witness :
    FamilyAllocation.allocate_seats ["1A", "1B", "2A"] 2 =
      Except.ok ((((sortedRowKeys ["1A", "1B", "2A"]).map
          (rowGroup ["1A", "1B", "2A"])).flatten).take 2,
        mark_seats_as_used ["1A", "1B", "2A"]
          ((((sortedRowKeys ["1A", "1B", "2A"]).map
            (rowGroup ["1A", "1B", "2A"])).flatten).take 2)) ∧
    ((((sortedRowKeys ["1A", "1B", "2A"]).map
        (rowGroup ["1A", "1B", "2A"])).flatten).take 2).length = 2 :=
  family_allocate_spec ["1A", "1B", "2A"] 2 (by norm_num) (by norm_num)

/-- `BookingService._allocate_seats` (booking_service.py lines 261-273).
Its docstring reads "Allocate seats using current seating strategy", but
the body — under the comment "In a real implementation, this would use the
seating strategy.  For now, generate sequential seat numbers" — returns
`[f"{i+1}A" for i in range(seat_count)]` and never consults the injected
strategy. -/
def service_allocate_seats (seat_count : ℕ) : List String :=
  (List.range seat_count).map (fun i => toString (i + 1) ++ "A")

/-- The seat-selection step of `BookingService.create_booking`
(booking_service.py lines 70-72): `if not seat_numbers:` replaces an
omitted or empty list by `self._allocate_seats(len(passenger_ids))`.  The
injected seating strategy's pool is threaded through to show it is left
untouched. -/
def create_booking_seats (passenger_ids : List String)
    (seat_numbers : Option (List String)) (strategyPool : List String) :
    List String × List String :=
  match seat_numbers with
  | none => (service_allocate_seats passenger_ids.length, strategyPool)
  | some s =>
    if s.isEmpty then (service_allocate_seats passenger_ids.length, strategyPool)
    else (s, strategyPool)

/-- C4 evaluation at the failing input: a service whose injected
(sequential) strategy owns the pool ["5C", "5D"], asked to create a booking
for two passengers with no seat numbers, books ["1A", "2A"] and leaves the
strategy's pool unconsumed, whereas the injected strategy would have
yielded ["5C", "5D"] and emptied its pool — `create_booking` does not
obtain default seats from the injected seating strategy. -/
theorem create_booking_ignores_injected_strategy :
    create_booking_seats ["P1", "P2"] none ["5C", "5D"] =
      (["1A", "2A"], ["5C", "5D"]) ∧
    SequentialAllocation.allocate_seats ["5C", "5D"] 2 =
      Except.ok (["5C", "5D"], []) ∧
    (["1A", "2A"] : List String) ≠ ["5C", "5D"] :=
  ⟨rfl, rfl, by decide⟩

/-- `dict.get` on the booking repository (`InMemoryRepository.get`,
in_memory_repo.py line 43), the repository being an association list with
unique keys. -/
def repoGet (repo : List (String × Booking)) (bid : String) : Option Booking :=
  (repo.find? (fun p => p.1 == bid)).map Prod.snd

/-- `InMemoryRepository.update` (in_memory_repo.py lines 64-79): raises
when the ID is absent, else replaces the stored entity. -/
def repoUpdate (repo : List (String × Booking)) (bid : String) (b : Booking) :
    Except String (List (String × Booking)) :=
  if (repo.find? (fun p => p.1 == bid)).isSome then
    .ok (repo.map (fun p => if p.1 == bid then (bid, b) else p))
  else
    .error ("Entity not found: " ++ bid)

/-- `BookingService.pay_booking` (booking_service.py lines 106-129): fetch
the booking, call `record_payment` DISCARDING its boolean result, call
`mark_as_paid` when the booking reports itself fully paid, persist via
`update`, and return `True`. -/
def pay_booking (repo : List (String × Booking)) (bid : String) (amount : ℚ) :
    Except String (List (String × Booking) × Bool) :=
  match repoGet repo bid with
  | none => .error ("Booking not found: " ++ bid)
  | some b =>
    match b.record_payment amount with
    | .error e => .error e
    | .ok rp =>
      match (if rp.1.is_paid then rp.1.mark_as_paid else .ok rp.1) with
      | .error e => .error e
      | .ok b2 =>
        match repoUpdate repo bid b2 with
        | .error e => .error e
        | .ok repo2 => .ok (repo2, true)

/-- A booking whose total price is 0 (constructible: the dataclass
validator allows paid_amount = total_price = 0), still PENDING. -/
def sampleZeroPriceBooking : Booking :=
  { sampleBooking with total_price := 0, paid_amount := 0 }

/-- C10 counterexample: `pay_booking` does NOT return true for every stored
booking and every amount > 0 on which `record_payment` rejects: on a
PENDING booking already fully paid (total 0, paid 0), amount 5 is rejected
by `record_payment`, but `is_paid` then holds and `mark_as_paid` raises
from PENDING, so `pay_booking` raises instead of returning true. -/
theorem pay_booking_raises_on_fully_paid :
    pay_booking [("BK-0001", sampleZeroPriceBooking)] "BK-0001" 5 =
      Except.error "Cannot mark as paid with status: PENDING" := by
  have hget : repoGet [("BK-0001", sampleZeroPriceBooking)] "BK-0001" =
      some sampleZeroPriceBooking := rfl
  have hrp : sampleZeroPriceBooking.record_payment 5 =
      Except.ok (sampleZeroPriceBooking, false) := by
    unfold Booking.record_payment
    rw [if_neg (by norm_num),
      if_neg (by norm_num [sampleZeroPriceBooking, sampleBooking])]
  have hip : sampleZeroPriceBooking.is_paid = true := by
    simp [Booking.is_paid, sampleZeroPriceBooking, sampleBooking]
  have hmp : sampleZeroPriceBooking.mark_as_paid =
      Except.error "Cannot mark as paid with status: PENDING" := by
    unfold Booking.mark_as_paid
    rw [if_pos (by simp [sampleZeroPriceBooking, sampleBooking])]
    rfl
  simp only [pay_booking, hget, hrp, hip, if_true, hmp]

/-- After replacing every entry keyed `bid` by `(bid, b)`, looking up `bid`
yields `b` (provided the key was present). -/
theorem repoGet_map_update (repo : List (String × Booking)) (bid : String)
    (b : Booking) (h : (repoGet repo bid).isSome) :
    repoGet (repo.map (fun p => if p.1 == bid then (bid, b) else p)) bid =
      some b := by
  induction repo with
  | nil => simp [repoGet] at h
  | cons p ps ih =>
    by_cases hp : p.1 = bid
    · rw [List.map_cons, if_pos (by simpa using hp)]
      unfold repoGet
      rw [List.find?_cons_of_pos _ (by simp)]
      rfl
    · rw [List.map_cons, if_neg (by simpa using hp)]
      have h' : (repoGet ps bid).isSome := by
        unfold repoGet at h
        rw [List.find?_cons_of_neg _ (by simpa using hp)] at h
        exact h
      show repoGet ((p :: ps.map (fun p => if p.1 == bid then (bid, b) else p)) :
          List (String × Booking)) bid = some b
      unfold repoGet
      rw [List.find?_cons_of_neg _ (by simpa using hp)]
      exact ih h'

/-- C10 (amended): for every booking present in the repository that is not
yet fully paid (paid_amount < total_price) and every amount > 0 that
`record_payment` rejects for exceeding total_price, `pay_booking` returns
true anyway: the unchanged booking is re-persisted via `update` and the
caller gets `true` with no indication that the payment was not recorded. -/
theorem pay_booking_overpayment_still_true (repo : List (String × Booking))
    (bid : String) (b : Booking) (amount : ℚ)
    (hget : repoGet repo bid = some b) (hpos : 0 < amount)
    (hover : b.total_price < b.paid_amount + amount)
    (hunpaid : b.paid_amount < b.total_price) :
    pay_booking repo bid amount =
      Except.ok (repo.map (fun p => if p.1 == bid then (bid, b) else p), true) ∧
    repoGet (repo.map (fun p => if p.1 == bid then (bid, b) else p)) bid =
      some b := by
  have hrp : b.record_payment amount = Except.ok (b, false) := by
    unfold Booking.record_payment
    rw [if_neg (by linarith), if_neg (by linarith)]
  have hip : b.is_paid = false := by
    simp only [Booking.is_paid, decide_eq_false_iff_not]
    linarith
  have hfind : (repo.find? (fun p => p.1 == bid)).isSome := by
    unfold repoGet at hget
    cases hf : repo.find? (fun p => p.1 == bid) with
    | none => rw [hf] at hget; simp at hget
    | some q => simp
  have hup : repoUpdate repo bid b =
      Except.ok (repo.map (fun p => if p.1 == bid then (bid, b) else p)) := by
    unfold repoUpdate
    rw [if_pos hfind]
  constructor
  · simp [pay_booking, hget, hrp, hip, hup]
  · exact repoGet_map_update repo bid b (by rw [hget]; rfl)

/-- Witness for the amended C10: overpaying 150 on the 100-total,
nothing-paid sample booking returns true with the booking unchanged in the
repository. -/
theorem pay_booking_overpayment_still_true_witness :
    pay_booking [("BK-0001", samplePartialBooking)] "BK-0001" 150 =
      Except.ok ([("BK-0001", samplePartialBooking)].map
        (fun p => if p.1 == "BK-0001" then ("BK-0001", samplePartialBooking)
          else p), true) ∧
    repoGet ([("BK-0001", samplePartialBooking)].map
      (fun p => if p.1 == "BK-0001" then ("BK-0001", samplePartialBooking)
        else p)) "BK-0001" = some samplePartialBooking :=
  pay_booking_overpayment_still_true _ _ _ _ rfl (by norm_num)
    (by norm_num [samplePartialBooking, sampleBooking])
    (by norm_num [samplePartialBooking, sampleBooking])
